import Mathlib

/-!
AutoWriter web client: request gateway and image-processing API.

A shallow embedding of `web/src/utils/request.js` (the axios instance
`service`, its configuration and its four interceptor handlers) and of
`web/src/api/img_proc.js` (three functions that build a request
configuration and hand it to `request`).

JavaScript values are embedded as a small untyped value universe.  The
handlers have two kinds of observable behaviour: the calls they make to the
console and to `ElMessage` (recorded, in order, as a list of effects) and the
way they complete (a returned value, a returned rejected promise, or a thrown
`TypeError` from reading a property of `undefined` / `null`).
-/

namespace AutoWriter

/-- JavaScript values.  Numbers are restricted to the integer-valued ones,
which are the only numbers this program computes with (`30000`, `5 * 1000`).
Objects are lists of own properties, the first binding of a key being the
visible one. -/
inductive JSValue where
  | undefined : JSValue
  | null : JSValue
  | bool (b : Bool) : JSValue
  | num (n : Int) : JSValue
  | str (s : String) : JSValue
  | arr (items : List JSValue) : JSValue
  | obj (props : List (String × JSValue)) : JSValue

/-- Own-property lookup in a property list; a missing key reads as
`undefined`. -/
def lookupProp : List (String × JSValue) → String → JSValue
  | [], _ => JSValue.undefined
  | (k, v) :: rest, key => if k = key then v else lookupProp rest key

/-- Whether a property list binds the key at all. -/
def hasProp : List (String × JSValue) → String → Bool
  | [], _ => false
  | (k, _) :: rest, key => if k = key then true else hasProp rest key

/-- The member read `v.key`.  On `undefined` and `null` it throws a
`TypeError` (`none`).  On an object it is the own-property lookup.  On the
other values it is `undefined`: the only keys this program reads are `data`
and `message`, which no built-in prototype of a primitive or array defines. -/
def member (v : JSValue) (key : String) : Option JSValue :=
  match v with
  | JSValue.undefined => none
  | JSValue.null => none
  | JSValue.obj props => some (lookupProp props key)
  | _ => some JSValue.undefined

/-- JavaScript `ToBoolean`: `undefined`, `null`, `false`, `0` and the empty
string are falsy, everything else is truthy. -/
def toBoolean : JSValue → Bool
  | JSValue.undefined => false
  | JSValue.null => false
  | JSValue.bool b => b
  | JSValue.num n => n != 0
  | JSValue.str s => s != ""
  | JSValue.arr _ => true
  | JSValue.obj _ => true

/-- The operator `a || b`: the left operand when it is truthy, else the right
operand. -/
def jsOr (a b : JSValue) : JSValue :=
  if toBoolean a then a else b

/-- Calls a handler makes to its collaborators. -/
inductive Effect where
  | consoleLog (args : List JSValue) : Effect
  | elMessage (options : JSValue) : Effect

/-- How a handler body completes. -/
inductive Completion where
  | returned (v : JSValue) : Completion
  | rejection (reason : JSValue) : Completion
  | threwTypeError : Completion

/-- One run of a handler: the effects in the order they happened, and the
completion. -/
structure Run where
  effects : List Effect
  completion : Completion

/-- The `ElMessage` option objects among a list of effects, in order. -/
def notifications : List Effect → List JSValue
  | [] => []
  | Effect.elMessage o :: rest => o :: notifications rest
  | Effect.consoleLog _ :: rest => notifications rest

/-- The expression `process.env.VUE_APP_BASE_API`: environment variables are
strings, an unset one reads as `undefined`. -/
def envBaseApi (env : List (String × String)) : JSValue :=
  match env.lookup "VUE_APP_BASE_API" with
  | some v => JSValue.str v
  | none => JSValue.undefined

/-- The configuration object given to `axios.create` (request.js, lines 5-8). -/
def serviceConfig (env : List (String × String)) : JSValue :=
  JSValue.obj
    [ ("baseURL", jsOr (envBaseApi env) (JSValue.str "")),
      ("timeout", JSValue.num 30000) ]

/-- Request interceptor, fulfilled handler (request.js, lines 12-15):
`config => { return config }`. -/
def requestFulfilled (config : JSValue) : Run :=
  { effects := [], completion := Completion.returned config }

/-- Request interceptor, rejected handler (request.js, lines 16-19):
`console.log(error)` then `return Promise.reject(error)`. -/
def requestRejected (error : JSValue) : Run :=
  { effects := [Effect.consoleLog [error]], completion := Completion.rejection error }

/-- Response interceptor, fulfilled handler (request.js, lines 24-41):
`return response.data`; the code-inspecting branch below it is commented
out. -/
def responseFulfilled (response : JSValue) : Run :=
  match member response "data" with
  | none => { effects := [], completion := Completion.threwTypeError }
  | some body => { effects := [], completion := Completion.returned body }

/-- Response interceptor, rejected handler (request.js, lines 42-50):
`console.log` of the error, then `ElMessage` with
`error.message || '请求失败'`, type `'error'` and duration `5 * 1000`, then
`return Promise.reject(error)`. -/
def responseRejected (error : JSValue) : Run :=
  match member error "message" with
  | none =>
    { effects := [Effect.consoleLog [JSValue.str "请求错误", error]],
      completion := Completion.threwTypeError }
  | some m =>
    { effects :=
        [ Effect.consoleLog [JSValue.str "请求错误", error],
          Effect.elMessage
            (JSValue.obj
              [ ("message", jsOr m (JSValue.str "请求失败")),
                ("type", JSValue.str "error"),
                ("duration", JSValue.num (5 * 1000)) ]) ],
      completion := Completion.rejection error }

/-- The function `uploadOrgImage` (img_proc.js, lines 8-17); `request` is the
imported gateway. -/
def uploadOrgImage {P : Type} (request : JSValue → P) (formData : JSValue) : P :=
  request
    (JSValue.obj
      [ ("url", JSValue.str "/img_proc/uploadOrgImage"),
        ("method", JSValue.str "post"),
        ("data", formData),
        ("headers", JSValue.obj [("Content-Type", JSValue.str "multipart/form-data")]) ])

/-- The function `detectTableImage` (img_proc.js, lines 24-33). -/
def detectTableImage {P : Type} (request : JSValue → P) (formData : JSValue) : P :=
  request
    (JSValue.obj
      [ ("url", JSValue.str "/img_proc/detect_table_image"),
        ("method", JSValue.str "post"),
        ("data", formData),
        ("headers", JSValue.obj [("Content-Type", JSValue.str "multipart/form-data")]) ])

/-- The function `genHwImage` (img_proc.js, lines 40-46). -/
def genHwImage {P : Type} (request : JSValue → P) (data : JSValue) : P :=
  request
    (JSValue.obj
      [ ("url", JSValue.str "/img_proc/gen_hw_image"),
        ("method", JSValue.str "post"),
        ("data", data) ])

/-- The test `Object.prototype.hasOwnProperty.call(v, key)` on the values of
this model: only objects have own properties. -/
def hasOwnProperty (v : JSValue) (key : String) : Bool :=
  match v with
  | JSValue.obj props => hasProp props key
  | _ => false

/-- The request descriptor a call builds: what the API function passes to
`request`, observed by taking `request` to be the identity. -/
def descriptorOf (api : (JSValue → JSValue) → JSValue → JSValue) (arg : JSValue) : JSValue :=
  api id arg

/-- An error carries a message when its `message` property is truthy, which
is the test `error.message || ...` performs; for a string message this is
that the string is not empty. -/
def carriesMessage (errorProps : List (String × JSValue)) : Bool :=
  toBoolean (lookupProp errorProps "message")

/-- The fallback text of the failure notification. -/
def fallbackMessage : JSValue := JSValue.str "请求失败"

/-- A sample generate-handwriting argument,
`{tableData: [["a", "b"]], imgIndexKey: "k1"}`. -/
def sampleHwData : JSValue :=
  JSValue.obj
    [ ("tableData", JSValue.arr [JSValue.arr [JSValue.str "a", JSValue.str "b"]]),
      ("imgIndexKey", JSValue.str "k1") ]

/-- A sample response body, `{url: "http://x/img.png"}`. -/
def sampleBody : JSValue :=
  JSValue.obj [("url", JSValue.str "http://x/img.png")]

/-- The result of `a || b` is truthy as soon as `b` is. -/
theorem toBoolean_jsOr (a b : JSValue) (hb : toBoolean b = true) :
    toBoolean (jsOr a b) = true := by
  unfold jsOr
  by_cases ha : toBoolean a = true
  · simp [ha]
  · simp [ha, hb]

/-- A property list that does not bind a key reads `undefined` there. -/
theorem lookupProp_of_hasProp_false (props : List (String × JSValue)) (key : String)
    (h : hasProp props key = false) : lookupProp props key = JSValue.undefined := by
  induction props with
  | nil => rfl
  | cons p rest ih =>
    obtain ⟨k, v⟩ := p
    by_cases hk : k = key
    · simp [hasProp, hk] at h
    · simp only [hasProp, hk, if_false] at h
      simp only [lookupProp, hk, if_false]
      exact ih h

/-- C1: for every error object given to the response-failure handler, exactly
one notification is emitted; its type is "error", its duration is 5000, and
its message is the error's message itself when the error carries one and the
fallback text otherwise. -/
theorem responseRejected_emits_one_notification (props : List (String × JSValue)) :
    notifications (responseRejected (JSValue.obj props)).effects =
      [ JSValue.obj
          [ ("message",
              if carriesMessage props = true then lookupProp props "message"
              else JSValue.str "请求失败"),
            ("type", JSValue.str "error"),
            ("duration", JSValue.num 5000) ] ] := by
  simp [responseRejected, member, notifications, jsOr, carriesMessage]

/-- Instances of C1: an error whose message is `timeout of 30000ms exceeded`
is notified with that text, and an error without a message with the fallback
text. -/
theorem responseRejected_emits_one_notification_witness :
    notifications
        (responseRejected
          (JSValue.obj
            [ ("message", JSValue.str "timeout of 30000ms exceeded"),
              ("code", JSValue.str "ECONNABORTED") ])).effects =
      [ JSValue.obj
          [ ("message", JSValue.str "timeout of 30000ms exceeded"),
            ("type", JSValue.str "error"),
            ("duration", JSValue.num 5000) ] ] ∧
    notifications (responseRejected (JSValue.obj [("code", JSValue.str "ERR_NETWORK")])).effects =
      [ JSValue.obj
          [ ("message", JSValue.str "请求失败"),
            ("type", JSValue.str "error"),
            ("duration", JSValue.num 5000) ] ] := by
  refine ⟨?_, ?_⟩
  · rw [responseRejected_emits_one_notification]
    simp [carriesMessage, lookupProp, toBoolean]
  · rw [responseRejected_emits_one_notification]
    simp [carriesMessage, lookupProp, toBoolean]

/-- C2: for every error object given to the response-failure handler, the
handler returns a rejected promise whose reason is that same error; on no
input at all does the handler return a plain (resolved) value, and whenever it
returns a rejected promise the reason is the input itself.  The only calls it
makes are one `console.log` and one `ElMessage`: nothing is sent again. -/
theorem responseRejected_rejects_with_same_error :
    (∀ props : List (String × JSValue),
        (responseRejected (JSValue.obj props)).completion =
          Completion.rejection (JSValue.obj props)) ∧
    (∀ (error v : JSValue), (responseRejected error).completion ≠ Completion.returned v) ∧
    (∀ (error reason : JSValue),
        (responseRejected error).completion = Completion.rejection reason → reason = error) ∧
    (∀ props : List (String × JSValue),
        ∃ options : JSValue,
          (responseRejected (JSValue.obj props)).effects =
            [ Effect.consoleLog [JSValue.str "请求错误", JSValue.obj props],
              Effect.elMessage options ]) := by
  refine ⟨?_, ?_, ?_, ?_⟩
  · intro props
    simp [responseRejected, member]
  · intro error v
    cases error <;> simp [responseRejected, member]
  · intro error reason
    cases error <;> simp [responseRejected, member] <;> intro h <;> exact h.symm
  · intro props
    exact ⟨_, rfl⟩

/-- C3: for every response object, the response-success handler returns
exactly `response.data` and does nothing else; a response whose body is
`{url: "http://x/img.png"}` yields exactly that body. -/
theorem responseFulfilled_returns_body :
    (∀ props : List (String × JSValue),
        responseFulfilled (JSValue.obj props) =
          { effects := [], completion := Completion.returned (lookupProp props "data") }) ∧
    (responseFulfilled
        (JSValue.obj [("data", sampleBody), ("status", JSValue.num 200)])).completion =
      Completion.returned (JSValue.obj [("url", JSValue.str "http://x/img.png")]) := by
  refine ⟨?_, ?_⟩
  · intro props
    simp [responseFulfilled, member]
  · simp [responseFulfilled, member, lookupProp, sampleBody]

/-- C4: the response-success handler never returns a rejected promise and
never calls `ElMessage`, on any input; and for a response whose body has a
`code` field, whatever the value of that field and whatever else the body and
the response hold, the handler returns the body as it is with no effect. -/
theorem responseFulfilled_ignores_code :
    (∀ (response reason : JSValue),
        (responseFulfilled response).completion ≠ Completion.rejection reason) ∧
    (∀ response : JSValue, notifications (responseFulfilled response).effects = []) ∧
    (∀ (code : JSValue) (fields others : List (String × JSValue)),
        responseFulfilled
            (JSValue.obj (("data", JSValue.obj (("code", code) :: fields)) :: others)) =
          { effects := [],
            completion := Completion.returned (JSValue.obj (("code", code) :: fields)) }) := by
  refine ⟨?_, ?_, ?_⟩
  · intro response reason
    cases response <;> simp [responseFulfilled, member]
  · intro response
    cases response <;> simp [responseFulfilled, member, notifications]
  · intro code fields others
    simp [responseFulfilled, member, lookupProp]

/-- Instance of C4: a response whose body is `{code: 1, message: "bad"}` is
returned as it is, with no notification and no rejection. -/
theorem responseFulfilled_ignores_code_witness :
    responseFulfilled
        (JSValue.obj
          [ ("data", JSValue.obj [("code", JSValue.num 1), ("message", JSValue.str "bad")]),
            ("status", JSValue.num 200) ]) =
      { effects := [],
        completion :=
          Completion.returned
            (JSValue.obj [("code", JSValue.num 1), ("message", JSValue.str "bad")]) } :=
  responseFulfilled_ignores_code.2.2 (JSValue.num 1) [("message", JSValue.str "bad")]
    [("status", JSValue.num 200)]

/-- C5: each of the three API functions passes to `request` a descriptor
whose `method` is `post` and whose `url` is the path of its endpoint, for
every argument and every `request`. -/
theorem api_method_and_path (arg : JSValue) :
    (member (descriptorOf uploadOrgImage arg) "method" = some (JSValue.str "post") ∧
      member (descriptorOf uploadOrgImage arg) "url" =
        some (JSValue.str "/img_proc/uploadOrgImage")) ∧
    (member (descriptorOf detectTableImage arg) "method" = some (JSValue.str "post") ∧
      member (descriptorOf detectTableImage arg) "url" =
        some (JSValue.str "/img_proc/detect_table_image")) ∧
    (member (descriptorOf genHwImage arg) "method" = some (JSValue.str "post") ∧
      member (descriptorOf genHwImage arg) "url" =
        some (JSValue.str "/img_proc/gen_hw_image")) ∧
    (∀ request : JSValue → JSValue,
        uploadOrgImage request arg = request (descriptorOf uploadOrgImage arg) ∧
        detectTableImage request arg = request (descriptorOf detectTableImage arg) ∧
        genHwImage request arg = request (descriptorOf genHwImage arg)) := by
  refine ⟨?_, ?_, ?_, ?_⟩
  · simp [descriptorOf, uploadOrgImage, member, lookupProp]
  · simp [descriptorOf, detectTableImage, member, lookupProp]
  · simp [descriptorOf, genHwImage, member, lookupProp]
  · intro request
    exact ⟨rfl, rfl, rfl⟩

/-- C6: for every form data value, the descriptors built by `uploadOrgImage`
and `detectTableImage` have as `headers` the object whose only entry is
`Content-Type: multipart/form-data`, and as `data` the form data itself. -/
theorem multipart_headers_and_payload (formData : JSValue) :
    (member (descriptorOf uploadOrgImage formData) "headers" =
        some (JSValue.obj [("Content-Type", JSValue.str "multipart/form-data")]) ∧
      member (descriptorOf uploadOrgImage formData) "data" = some formData) ∧
    (member (descriptorOf detectTableImage formData) "headers" =
        some (JSValue.obj [("Content-Type", JSValue.str "multipart/form-data")]) ∧
      member (descriptorOf detectTableImage formData) "data" = some formData) := by
  refine ⟨?_, ?_⟩
  · simp [descriptorOf, uploadOrgImage, member, lookupProp]
  · simp [descriptorOf, detectTableImage, member, lookupProp]

/-- C7: for every object `d`, the descriptor built by `genHwImage` has `data`
equal to `d`, has no `headers` property, and is exactly the three-field object
of url, method and data; for `{tableData: [...], imgIndexKey: "k1"}` it is the
post descriptor to `/img_proc/gen_hw_image` carrying that object. -/
theorem genHwImage_payload_no_headers :
    (∀ d : JSValue,
        member (descriptorOf genHwImage d) "data" = some d ∧
        hasOwnProperty (descriptorOf genHwImage d) "headers" = false ∧
        descriptorOf genHwImage d =
          JSValue.obj
            [ ("url", JSValue.str "/img_proc/gen_hw_image"),
              ("method", JSValue.str "post"),
              ("data", d) ]) ∧
    descriptorOf genHwImage sampleHwData =
      JSValue.obj
        [ ("url", JSValue.str "/img_proc/gen_hw_image"),
          ("method", JSValue.str "post"),
          ("data",
            JSValue.obj
              [ ("tableData", JSValue.arr [JSValue.arr [JSValue.str "a", JSValue.str "b"]]),
                ("imgIndexKey", JSValue.str "k1") ]) ] := by
  refine ⟨?_, rfl⟩
  intro d
  refine ⟨?_, ?_, rfl⟩
  · simp [descriptorOf, genHwImage, member, lookupProp]
  · simp [descriptorOf, genHwImage, hasOwnProperty, hasProp]

/-- C8: the gateway configuration has `timeout` 30000 whatever the
environment; its `baseURL` is the value of `VUE_APP_BASE_API` when the
environment sets it, and the empty string when it does not. -/
theorem serviceConfig_timeout_and_baseURL :
    (∀ env : List (String × String),
        member (serviceConfig env) "timeout" = some (JSValue.num 30000)) ∧
    (∀ (env : List (String × String)) (v : String),
        env.lookup "VUE_APP_BASE_API" = some v →
          member (serviceConfig env) "baseURL" = some (JSValue.str v)) ∧
    (∀ env : List (String × String),
        env.lookup "VUE_APP_BASE_API" = none →
          member (serviceConfig env) "baseURL" = some (JSValue.str "")) := by
  refine ⟨?_, ?_, ?_⟩
  · intro env
    simp [serviceConfig, member, lookupProp]
  · intro env v h
    by_cases hv : v = ""
    · simp [serviceConfig, member, lookupProp, envBaseApi, h, jsOr, toBoolean, hv]
    · simp [serviceConfig, member, lookupProp, envBaseApi, h, jsOr, toBoolean, hv]
  · intro env h
    simp [serviceConfig, member, lookupProp, envBaseApi, h, jsOr, toBoolean]

/-- Instances of C8: with `VUE_APP_BASE_API` set to `/api` the base URL is
`/api`, and with an environment that does not set it the base URL is empty. -/
theorem serviceConfig_timeout_and_baseURL_witness :
    member (serviceConfig [("NODE_ENV", "production"), ("VUE_APP_BASE_API", "/api")])
        "baseURL" = some (JSValue.str "/api") ∧
    member (serviceConfig [("NODE_ENV", "production")]) "baseURL" = some (JSValue.str "") :=
  ⟨serviceConfig_timeout_and_baseURL.2.1 _ "/api" (by decide),
   serviceConfig_timeout_and_baseURL.2.2 _ (by decide)⟩

/-- C9: the request interceptor passes through on both paths: the fulfilled
handler returns the configuration it was given and does nothing else, and the
rejected handler logs the error and returns a rejected promise whose reason is
that same error. -/
theorem request_interceptor_passthrough :
    (∀ config : JSValue,
        requestFulfilled config =
          { effects := [], completion := Completion.returned config }) ∧
    (∀ arg : JSValue,
        (requestFulfilled (descriptorOf uploadOrgImage arg)).completion =
            Completion.returned (descriptorOf uploadOrgImage arg) ∧
        (requestFulfilled (descriptorOf detectTableImage arg)).completion =
            Completion.returned (descriptorOf detectTableImage arg) ∧
        (requestFulfilled (descriptorOf genHwImage arg)).completion =
            Completion.returned (descriptorOf genHwImage arg)) ∧
    (∀ error : JSValue,
        requestRejected error =
          { effects := [Effect.consoleLog [error]],
            completion := Completion.rejection error }) :=
  ⟨fun _ => rfl, fun _ => ⟨rfl, rfl, rfl⟩, fun _ => rfl⟩

/-- The message of the notification the response-failure handler emits for an
error object with the given properties. -/
theorem emitted_message_eq (props : List (String × JSValue)) :
    notifications (responseRejected (JSValue.obj props)).effects =
      [ JSValue.obj
          [ ("message", jsOr (lookupProp props "message") fallbackMessage),
            ("type", JSValue.str "error"),
            ("duration", JSValue.num 5000) ] ] := by
  simp [responseRejected, member, notifications, fallbackMessage]

/-- C10: the message of the notification emitted by the response-failure
handler is never the empty string; it is the fallback text when the error has
no message property or has the empty string as message, and it is the error's
message when that is a non-empty string. -/
theorem emitted_message_never_empty (props : List (String × JSValue)) :
    ∃ msg : JSValue,
      notifications (responseRejected (JSValue.obj props)).effects =
        [ JSValue.obj
            [ ("message", msg),
              ("type", JSValue.str "error"),
              ("duration", JSValue.num 5000) ] ] ∧
      msg ≠ JSValue.str "" ∧
      (hasProp props "message" = false → msg = JSValue.str "请求失败") ∧
      (lookupProp props "message" = JSValue.str "" → msg = JSValue.str "请求失败") ∧
      (∀ s : String, s ≠ "" → lookupProp props "message" = JSValue.str s →
        msg = JSValue.str s) := by
  refine ⟨jsOr (lookupProp props "message") fallbackMessage, emitted_message_eq props,
    ?_, ?_, ?_, ?_⟩
  · intro h
    have ht : toBoolean (jsOr (lookupProp props "message") fallbackMessage) = true :=
      toBoolean_jsOr _ _ (by simp [fallbackMessage, toBoolean])
    rw [h] at ht
    simp [toBoolean] at ht
  · intro h
    rw [lookupProp_of_hasProp_false props "message" h]
    simp [jsOr, toBoolean, fallbackMessage]
  · intro h
    rw [h]
    simp [jsOr, toBoolean, fallbackMessage]
  · intro s hs h
    rw [h]
    simp [jsOr, toBoolean, hs]

/-- Instances of C10: an error without a message and an error whose message
is the empty string are shown with the fallback text, and an error whose
message is `Network Error` is shown with that text. -/
theorem emitted_message_never_empty_witness :
    notifications (responseRejected (JSValue.obj [("name", JSValue.str "Error")])).effects =
        [ JSValue.obj
            [ ("message", JSValue.str "请求失败"),
              ("type", JSValue.str "error"),
              ("duration", JSValue.num 5000) ] ] ∧
    notifications (responseRejected (JSValue.obj [("message", JSValue.str "")])).effects =
        [ JSValue.obj
            [ ("message", JSValue.str "请求失败"),
              ("type", JSValue.str "error"),
              ("duration", JSValue.num 5000) ] ] ∧
    notifications
        (responseRejected (JSValue.obj [("message", JSValue.str "Network Error")])).effects =
        [ JSValue.obj
            [ ("message", JSValue.str "Network Error"),
              ("type", JSValue.str "error"),
              ("duration", JSValue.num 5000) ] ] := by
  refine ⟨?_, ?_, ?_⟩
  · obtain ⟨msg, h, _, h1, _, _⟩ :=
      emitted_message_never_empty [("name", JSValue.str "Error")]
    rw [h, h1 (by simp [hasProp])]
  · obtain ⟨msg, h, _, _, h2, _⟩ :=
      emitted_message_never_empty [("message", JSValue.str "")]
    rw [h, h2 (by simp [lookupProp])]
  · obtain ⟨msg, h, _, _, _, h3⟩ :=
      emitted_message_never_empty [("message", JSValue.str "Network Error")]
    rw [h, h3 "Network Error" (by decide) (by simp [lookupProp])]

end AutoWriter
